import Mathlib

/-!
Verification development for the LHCb_Trends repository.

The repository consists of two near-duplicate per-run trend pipelines,
`plot_occupancies.py` and `plot_pseudo_efficiencies.py`, plus two options
modules (`occupancy_options.py`, `options_for_eff.py`).  This file gives a
shallow embedding of the run-admission sequence, the shard-directory helper,
the metric-extraction loop (`entries_selection` and the per-location method
dispatch), the series accumulation (absolute/ratio), and the y-axis range
heuristic, and proves properties of them.

Modelling conventions: Python floats are modelled as `ℝ` (exact rationals
`ℚ` where only comparisons and field arithmetic occur), Python ints as
`ℕ`/`ℤ`, uncaught exceptions and `sys.exit` as `Except`-style error results.
ROOT histograms are abstracted as records exposing exactly the query
primitives the scripts call (entries, mean/RMS with errors, bin content,
1D/2D integrals, axis bin lookup, 2D-ness).
-/

namespace LHCbTrends

/-- `run_dir_from_run_no` from `plot_occupancies.py` lines 12-22 (identical in
`plot_pseudo_efficiencies.py` lines 57-60): the two shard components are
`floor(run_no/10000)*10000` and `floor(run_no/1000)*1000` (Python true division
followed by `math.floor`), each rendered in decimal with a trailing slash. -/
def run_dir_from_run_no (run_no : ℕ) : String :=
  let sd_1 := ⌊(run_no : ℚ) / 10000⌋₊ * 10000
  let sd_2 := ⌊(run_no : ℚ) / 1000⌋₊ * 1000
  toString sd_1 ++ "/" ++ toString sd_2 ++ "/"

/-- Constant `min_run_length = 300.` (seconds), shared by both scripts. -/
def min_run_length : ℚ := 300

/-- Constant `require_offline = False`, shared by both scripts. -/
def require_offline : Bool := false

/-- The per-run observations that the admission code of either script branches
on: whether the cached rundb payload parses, whether it has a usable `state`
key, whether that state is `CREATED`, whether the destination is `OFFLINE`,
whether the start/end timestamps parse, the run length in seconds, whether the
saveset file exists before/after the on-demand creation request, and the
zombie / crash-recovered flags of the opened file. -/
structure RunGate where
  infoParses : Bool
  hasStateKey : Bool
  stateCreated : Bool
  destinationOffline : Bool
  timeParseOk : Bool
  runLength : ℚ
  savesetExists : Bool
  savesetExistsAfterCreate : Bool
  zombie : Bool
  recovered : Bool

/-- Reasons a run can be skipped by the admission sequences. -/
inductive Reason
  | invalidInfo
  | notFinalized
  | wrongDestination
  | tooShort
  | noData
  | zombieFile
  | corrupt
  | timeParse
deriving DecidableEq

/-- Outcome of the admission sequence for one candidate run: accepted, skipped
with a reason (`continue` in the source), or a fatal uncaught exception. -/
inductive Verdict
  | accept
  | skip (r : Reason)
  | fatal
deriving DecidableEq

/-- Run admission of `plot_occupancies.py` lines 157-196, in source order:
`json.loads` of the cached info (uncaught on failure, line 157), the
`state == 'CREATED'` check inside `try/except` (158-163), the destination
check (164-165), the saveset existence check with on-demand creation attempt
(166-179), the start/end time parse (182-184, uncaught on failure), the
`run_length < min_run_length` check (187-189), and the `kRecovered` check
after opening the file (194-196).  The second component records whether the
on-demand creation request (the expensive wget) was issued. -/
def gateOcc (g : RunGate) : Verdict × Bool :=
  if !g.infoParses then (.fatal, false)
  else if !g.hasStateKey then (.skip .invalidInfo, false)
  else if g.stateCreated then (.skip .notFinalized, false)
  else if require_offline && !g.destinationOffline then (.skip .wrongDestination, false)
  else
    let tryCreate := !g.savesetExists
    if !g.savesetExists && !g.savesetExistsAfterCreate then (.skip .noData, tryCreate)
    else if !g.timeParseOk then (.fatal, tryCreate)
    else if g.runLength < min_run_length then (.skip .tooShort, tryCreate)
    else if g.recovered then (.skip .corrupt, tryCreate)
    else (.accept, tryCreate)

/-- Run admission of `plot_pseudo_efficiencies.py` lines 131-170, in source
order: the caught `json.load` (131-135), `state == 'CREATED'` via `.get`
(137-138), the destination check (139-140), the caught time parse (142-148),
the `run_length < min_run_length` check (150-151), the saveset existence check
with creation attempt (153-162), the zombie check (164-167) and the
`kRecovered` check (168-170). -/
def gateEff (g : RunGate) : Verdict × Bool :=
  if !g.infoParses then (.skip .invalidInfo, false)
  else if g.hasStateKey && g.stateCreated then (.skip .notFinalized, false)
  else if require_offline && !g.destinationOffline then (.skip .wrongDestination, false)
  else if !g.timeParseOk then (.skip .timeParse, false)
  else if g.runLength < min_run_length then (.skip .tooShort, false)
  else
    let tryCreate := !g.savesetExists
    if !g.savesetExists && !g.savesetExistsAfterCreate then (.skip .noData, tryCreate)
    else if g.zombie then (.skip .zombieFile, tryCreate)
    else if g.recovered then (.skip .corrupt, tryCreate)
    else (.accept, tryCreate)

/-- Modelled from the spec: a strict priority list of (condition, verdict)
checks where the first condition that holds decides the run and later checks
are not performed; the run is accepted when no check fails.  Used to compare
the scripts' admission sequences against the claimed priority order. -/
def firstFailing : List (Bool × Verdict) → Verdict
  | [] => .accept
  | (b, v) :: rest => if b then v else firstFailing rest

/-- The check order `plot_occupancies.py` actually applies (saveset existence
before the run-length check). -/
def occOrder (g : RunGate) : List (Bool × Verdict) :=
  [ (!g.infoParses, .fatal),
    (!g.hasStateKey, .skip .invalidInfo),
    (g.stateCreated, .skip .notFinalized),
    (require_offline && !g.destinationOffline, .skip .wrongDestination),
    (!g.savesetExists && !g.savesetExistsAfterCreate, .skip .noData),
    (!g.timeParseOk, .fatal),
    (decide (g.runLength < min_run_length), .skip .tooShort),
    (g.recovered, .skip .corrupt) ]

/-- The check order `plot_pseudo_efficiencies.py` applies (run-length check
before the saveset existence check, as the claim states). -/
def effOrder (g : RunGate) : List (Bool × Verdict) :=
  [ (!g.infoParses, .skip .invalidInfo),
    (g.hasStateKey && g.stateCreated, .skip .notFinalized),
    (require_offline && !g.destinationOffline, .skip .wrongDestination),
    (!g.timeParseOk, .skip .timeParse),
    (decide (g.runLength < min_run_length), .skip .tooShort),
    (!g.savesetExists && !g.savesetExistsAfterCreate, .skip .noData),
    (g.zombie, .skip .zombieFile),
    (g.recovered, .skip .corrupt) ]

/-- Argument validation of `plot_occupancies.py` lines 77-87: fewer than three
user arguments, or `run_upper < run_lower`, print a message and `sys.exit(0)`.
The result is `some code` when the script exits with status `code` before the
run loop, `none` when it proceeds.  (`argc` counts `sys.argv`, i.e. the script
name plus the user arguments; the integer parsing of the two run numbers is
taken as given since a parse failure is an uncaught exception.) -/
def argCheckOcc (argc : ℕ) (run_lower run_upper : ℤ) : Option ℕ :=
  if argc < 4 then some 0
  else if run_upper < run_lower then some 0
  else none

/-- Argument validation of `plot_pseudo_efficiencies.py` lines 62-80:
`usage_and_exit` and the `run_upper < run_lower` branch both call
`sys.exit(1)`. -/
def argCheckEff (argc : ℕ) (run_lower run_upper : ℤ) : Option ℕ :=
  if argc < 4 then some 1
  else if run_upper < run_lower then some 1
  else none

/-- Y-axis range heuristic of `plot_occupancies.py` lines 345-372, for the case
where no explicit `y_range` is configured, as a function of the plot's bin
contents (bins `1..GetNbinsX()`): the mean bin content is accumulated over all
bins and divided by the bin count; if `5*mean > max` the working maximum
becomes the true maximum, otherwise it stays at the mean; then the displayed
range is `[0, 1.5*working_max]` when the minimum bin content is positive, else
`[1.5*min, 1.5*max]` when the true maximum is positive, else `[1.5*min, 0.5*max]`.
An empty histogram makes the Python divide by zero, modelled as `none`. -/
def yAxisRange (bins : List ℚ) : Option (ℚ × ℚ) :=
  match bins with
  | [] => none
  | b :: bs =>
    let output_plot_minimum := bs.foldl min b
    let trueMax := bs.foldl max b
    let meanContent := (b :: bs).sum / ((b :: bs).length : ℚ)
    let workingMax := if 5 * meanContent > trueMax then trueMax else meanContent
    if output_plot_minimum > 0 then some (0, 3 / 2 * workingMax)
    else if trueMax > 0 then some (3 / 2 * output_plot_minimum, 3 / 2 * trueMax)
    else some (3 / 2 * output_plot_minimum, 1 / 2 * trueMax)

/-! ### The histogram model and the metric-extraction loop -/

/-- One histogram axis as the scripts consume it: bin count (`GetNbinsX` /
`GetNbinsY`) and coordinate-to-bin lookup (`FindBin`, also used through
`ProjectionX()` / `ProjectionY()` for zero lookup on 2D objects). -/
structure Axis where
  nbins : ℤ
  findBin : ℝ → ℤ

/-- Abstract histogram-like object (ROOT TH1/TH2) exposing exactly the query
primitives `plot_occupancies.py` calls: name, 2D-ness (`InheritsFrom "TH2"`),
entry count, per-axis data, bin content by index, 1D and 2D integrals over
inclusive bin ranges, and the mean/RMS statistics with their errors. -/
structure Hist where
  name : String
  is2D : Bool
  entries : ℝ
  xaxis : Axis
  yaxis : Axis
  binContent : ℤ → ℝ
  integral1 : ℤ → ℤ → ℝ
  integral2 : ℤ → ℤ → ℤ → ℤ → ℝ
  statMean : ℝ
  statMeanError : ℝ
  statRMS : ℝ
  statRMSError : ℝ

/-- How a step of the pipeline can abort: `exitCode c` models `sys.exit(c)`,
the others model uncaught Python exceptions (which terminate the process with
a traceback): `IndexError` from `temp_counts[-1]` on an empty list, a missing
`temp_counts[i]`, or a one-element region list read at index 1;
`AttributeError` from calling methods on a null object; `ValueError` from
`int()` on a non-numeric string or `math.sqrt` of a negative number;
`ZeroDivisionError` from a float division by zero; `NameError` from an
unbound `this_count` when no method branch matched. -/
inductive Fault
  | exitCode (code : ℕ)
  | indexError
  | attrError
  | valueError
  | zeroDivisionError
  | nameError
deriving DecidableEq

/-- `entries_selection` from `plot_occupancies.py` lines 24-58: quadrant
methods on a non-2D object print a message and `sys.exit(0)`; otherwise the
zero bin is looked up per axis (via the projections when 2D) and the matching
integral is returned; an unknown selection type also exits with status 0. -/
def entries_selection (h : Hist) (selection_type : String) : Except Fault ℝ :=
  if (selection_type = "quadrant1" ∨ selection_type = "quadrant2" ∨
      selection_type = "quadrant3" ∨ selection_type = "quadrant4") ∧ h.is2D = false then
    .error (.exitCode 0)
  else
    let zero_x := h.xaxis.findBin 0
    let zero_y := if h.is2D then h.yaxis.findBin 0 else zero_x
    if selection_type = "negative" then
      .ok (if h.is2D then h.integral2 1 zero_x 1 h.yaxis.nbins else h.integral1 1 zero_x)
    else if selection_type = "positive" then
      .ok (if h.is2D then h.integral2 zero_x h.xaxis.nbins 1 h.yaxis.nbins
           else h.integral1 zero_x h.xaxis.nbins)
    else if selection_type = "quadrant1" then
      .ok (h.integral2 zero_x h.xaxis.nbins zero_y h.yaxis.nbins)
    else if selection_type = "quadrant2" then
      .ok (h.integral2 1 zero_x zero_y h.yaxis.nbins)
    else if selection_type = "quadrant3" then
      .ok (h.integral2 1 zero_x 1 zero_y)
    else if selection_type = "quadrant4" then
      .ok (h.integral2 zero_x h.xaxis.nbins 1 zero_y)
    else .error (.exitCode 0)

/-- Python `str.split(sep)` on character lists, for a non-empty separator:
leftmost non-overlapping matches, fuelled structural recursion (the fuel is
always at least the input length plus one, so it never runs out). -/
def splitChars (sep : List Char) : ℕ → List Char → List Char → List (List Char)
  | 0, rest, acc => [acc.reverse ++ rest]
  | _ + 1, [], acc => [acc.reverse]
  | fuel + 1, x :: xs, acc =>
    if sep ≠ [] ∧ sep.isPrefixOf (x :: xs) then
      acc.reverse :: splitChars sep fuel (List.drop sep.length (x :: xs)) []
    else
      splitChars sep fuel xs (x :: acc)

/-- Python `s.split(sep)` for a non-empty separator, as used by the method
dispatch (`options["method"][i].split("bin")`). -/
def pySplit (s sep : String) : List String :=
  (splitChars sep.data (s.data.length + 1) s.data []).map fun l => ⟨l⟩

/-- Value of a non-empty all-digit character list, else `none`. -/
def digitsVal (cs : List Char) : Option ℕ :=
  match cs with
  | [] => none
  | _ =>
    if cs.all (·.isDigit) then
      some (cs.foldl (fun a c => 10 * a + (c.toNat - '0'.toNat)) 0)
    else none

/-- Python `int(s)` restricted to optionally signed decimal literals; anything
else raises `ValueError`, modelled as `none`. -/
def pyInt (s : String) : Option ℤ :=
  match s.data with
  | '-' :: rest => (digitsVal rest).map fun n => -(n : ℤ)
  | '+' :: rest => (digitsVal rest).map fun n => (n : ℤ)
  | l => (digitsVal l).map fun n => (n : ℤ)

/-- Join a list of strings with a separator. -/
def joinWith (sep : String) : List String → String
  | [] => ""
  | [x] => x
  | x :: xs => x ++ sep ++ joinWith sep xs

/-- Python `s.replace(pattern, replacement)`: every non-overlapping occurrence
of `pattern`, scanned left to right, is replaced (split on the pattern, join
with the replacement); used for the sensor-key computation
`GetName().replace("VPClusterMapOn", "")`. -/
def pyReplace (s pattern replacement : String) : String :=
  joinWith replacement (pySplit s pattern)

/-- A hotspot region of interest as stored in `populated_regions`
(`occupancy_options.py`): the `x` and `y` entries are coordinate lists; the
extraction code tests them for emptiness and then reads indices 0 and 1 (a
one-element list therefore faults at index 1). -/
structure Roi where
  x : List ℝ
  y : List ℝ

/-- The configuration consumed by the extraction loop: the histogram paths,
the per-location method strings, the series type (`options["type"]`), and the
hotspot lookup table (`populated_regions`, empty when the options module has
none). -/
structure Opts where
  locations : List String
  methods : List String
  mtype : String
  regions : String → Option Roi

/-- The per-sensor hotspot table from `occupancy_options.py` lines 3-9: for
every module 0-51, four sensor keys with fixed rectangular regions. -/
noncomputable def populated_regions : List (String × Roi) :=
  (List.range 52).flatMap fun m =>
    [ (s!"Mod{m}Sens0", ⟨[550, 750], [200, 250]⟩),
      (s!"Mod{m}Sens1", ⟨[0, 250], [150, 250]⟩),
      (s!"Mod{m}Sens2", ⟨[0, 200], [200, 250]⟩),
      (s!"Mod{m}Sens3", ⟨[500, 750], [180, 250]⟩) ]

open Classical in
/-- One iteration of the extraction loop of `plot_occupancies.py` lines
215-291, for histogram `h`, method string `m`, run length `L` hours
(`runs_info["length"][-1]`) and the counts already extracted for this run
(`temp_counts`).  The method dispatch follows the source's `elif` chain,
including the substring test `"bin" in method` modelled as
`2 ≤ (pySplit m "bin").length` (a string contains `"bin"` exactly when
splitting on it yields at least two parts).  Python float faults are modelled
explicitly, in the source's evaluation order: `math.sqrt` of a negative
number raises `ValueError`; a float division by zero — `prev/sqrt(0)` in the
prior-sample error formula, `raw/ref` and `1/raw` in the bin ratio — raises
`ZeroDivisionError`; `temp_counts[-1]` is read (possibly an `IndexError`)
before the square root is taken; and a region list with a single element
faults at index 1.  The only division left total is the normalisation by the
run length `L`, which is positive for every admitted run
(`run_length ≥ min_run_length = 300 s > 0`).  A method string matching
no branch leaves Python's `this_count` unbound, which faults on first use
(`nameError`); the source would silently reuse a stale binding if a previous
iteration had set one, a corner no theorem below relies on. -/
noncomputable def extractLoc (o : Opts) (L : ℝ) (temp_counts : List ℝ) (h : Hist)
    (m : String) : Except Fault (ℝ × ℝ) :=
  if m = "raw" then
    if h.entries < 0 then .error .valueError
    else .ok (h.entries / L, Real.sqrt h.entries / L)
  else if m = "mean" then
    .ok (h.statMean, h.statMeanError)
  else if m = "RMS" then
    .ok (h.statRMS, h.statRMSError)
  else if m = "quadrant1" ∨ m = "quadrant2" ∨ m = "quadrant3" ∨ m = "quadrant4" ∨
          m = "negative" ∨ m = "positive" then
    match entries_selection h m with
    | .error f => .error f
    | .ok raw_count =>
      match temp_counts.getLast? with
      | none => .error .indexError
      | some prev =>
        if raw_count < 0 then .error .valueError
        else if raw_count = 0 then .error .zeroDivisionError
        else .ok (raw_count / L, prev / Real.sqrt raw_count)
  else if m = "hotspot_mean" then
    let sensor_key := pyReplace h.name "VPClusterMapOn" ""
    match o.regions sensor_key with
    | none => .ok (0, 0)
    | some roi =>
      match roi.x, roi.y with
      | x0 :: xr, y0 :: yr =>
        match xr with
        | [] => .error .indexError
        | x1 :: _ =>
          match yr with
          | [] => .error .indexError
          | y1 :: _ =>
            let start_x_bin := h.xaxis.findBin x0
            let end_x_bin := h.xaxis.findBin x1
            let start_y_bin := h.yaxis.findBin y0
            let end_y_bin := h.yaxis.findBin y1
            let n_bins_in_roi : ℤ :=
              (end_x_bin - start_x_bin + 1) * (end_y_bin - start_y_bin + 1)
            let integral := h.integral2 start_x_bin end_x_bin start_y_bin end_y_bin
            if 0 < n_bins_in_roi ∧ 0 < integral then
              .ok (integral / (n_bins_in_roi : ℝ) / L,
                   Real.sqrt integral / (n_bins_in_roi : ℝ) / L)
            else .ok (0, 0)
      | _, _ => .ok (0, 0)
  else if 2 ≤ (pySplit m "bin").length then
    let binslist := pySplit m "bin"
    match pyInt (binslist.getD 1 "") with
    | none => .error .valueError
    | some b =>
      let raw_count := h.binContent b
      if 2 < binslist.length then
        match pyInt (binslist.getD 2 "") with
        | none => .error .valueError
        | some b2 =>
          let ref_count := h.binContent b2
          if ref_count = 0 then .error .zeroDivisionError
          else if raw_count = 0 then .error .zeroDivisionError
          else if (1 / raw_count + 1 / ref_count) * raw_count / ref_count < 0 then
            .error .valueError
          else
            .ok (raw_count / ref_count,
                 Real.sqrt ((1 / raw_count + 1 / ref_count) * raw_count / ref_count))
      else
        match temp_counts.getLast? with
        | none => .error .indexError
        | some prev =>
          if raw_count < 0 then .error .valueError
          else if raw_count = 0 then .error .zeroDivisionError
          else .ok (raw_count / L, prev / Real.sqrt raw_count)
  else .error .nameError

/-- The extraction loop over all configured locations (`plot_occupancies.py`
lines 215-294): each location is fetched from the archive and its
(count, error) pair appended to the running `temp_counts`/`temp_errors`. -/
noncomputable def extractAll (o : Opts) (L : ℝ) (file : String → Option Hist) :
    List (String × String) → List ℝ → List ℝ → Except Fault (List ℝ × List ℝ)
  | [], temp_counts, temp_errors => .ok (temp_counts, temp_errors)
  | (loc, m) :: rest, temp_counts, temp_errors =>
    match file loc with
    | none => .error .attrError
    | some h =>
      match extractLoc o L temp_counts h m with
      | .error f => .error f
      | .ok (c, e) => extractAll o L file rest (temp_counts ++ [c]) (temp_errors ++ [e])

/-- The mutable module-level state the run loop appends to: `runs_info`'s
`numbers` and `length` lists, `options["counts"]` and `options["errors"]`, and
the sequence of payloads published to the DQDB. -/
structure PipeState where
  numbers : List ℕ
  lengths : List ℝ
  counts : List ℝ
  errors : List ℝ
  published : List (ℕ × ℝ × ℝ)

/-- The state before any run is processed. -/
def initState : PipeState := ⟨[], [], [], [], []⟩

/-- One admitted run, as consumed by the extraction part of the loop: its run
number, length in hours, and the archive content (`run_file.Get`). -/
structure RunInput where
  run : ℕ
  lengthHours : ℝ
  file : String → Option Hist

open Classical in
/-- The series accumulation of `plot_occupancies.py` lines 296-321: absolute
series pass sample 0 through and publish it; ratio series first read
`temp_counts[0]` and `temp_counts[1]` (an `IndexError` when missing), emit an
unpublished `(0, 0)` point when either value is exactly zero, and otherwise
append the quotient with the propagated relative error and publish it.  A
`type` that is neither string leaves the state unchanged. -/
noncomputable def accumulate (o : Opts) (s : PipeState) (run : ℕ)
    (temp_counts temp_errors : List ℝ) : Except Fault PipeState :=
  if o.mtype = "absolute" then
    match temp_counts, temp_errors with
    | c0 :: _, e0 :: _ =>
      .ok { s with
              counts := s.counts ++ [c0],
              errors := s.errors ++ [e0],
              published := s.published ++ [(run, c0, e0)] }
    | _, _ => .error .indexError
  else if o.mtype = "ratio" then
    match temp_counts with
    | c0 :: c1 :: _ =>
      if c0 = 0 ∨ c1 = 0 then
        .ok { s with counts := s.counts ++ [0], errors := s.errors ++ [0] }
      else
        match temp_errors with
        | e0 :: e1 :: _ =>
          let this_ratio := c0 / c1
          let this_err := this_ratio * Real.sqrt ((e0 / c0) ^ 2 + (e1 / c1) ^ 2)
          .ok { s with
                  counts := s.counts ++ [this_ratio],
                  errors := s.errors ++ [this_err],
                  published := s.published ++ [(run, this_ratio, this_err)] }
        | _ => .error .indexError
    | _ => .error .indexError
  else .ok s

/-- The per-admitted-run body of the main loop (`plot_occupancies.py` lines
198-321): the run number and length are appended to `runs_info` FIRST (lines
198-199); then all configured locations are checked for presence and the run
is abandoned (`continue`) if any is missing (204-213); otherwise every
location is extracted and the samples combined into the series. -/
noncomputable def processRun (o : Opts) (s : PipeState) (r : RunInput) :
    Except Fault PipeState :=
  let s1 := { s with
                numbers := s.numbers ++ [r.run],
                lengths := s.lengths ++ [r.lengthHours] }
  if o.locations.any fun loc => (r.file loc).isNone then .ok s1
  else
    match extractAll o r.lengthHours r.file (o.locations.zip o.methods) [] [] with
    | .error f => .error f
    | .ok (tc, te) => accumulate o s1 r.run tc te

/-- The loop over admitted runs: a fault in one run's processing (an uncaught
exception or `sys.exit`) aborts the remaining runs. -/
noncomputable def pipeline (o : Opts) : PipeState → List RunInput → Except Fault PipeState
  | s, [] => .ok s
  | s, r :: rs =>
    match processRun o s r with
    | .error f => .error f
    | .ok s2 => pipeline o s2 rs

/-- Top level of `plot_occupancies.py`: argument validation first; on failure
the process exits with the recorded status and no run is processed (`Sum.inl`),
otherwise the run loop executes over the admitted runs. -/
noncomputable def scriptOcc (argc : ℕ) (run_lower run_upper : ℤ) (o : Opts)
    (runs : List RunInput) : ℕ ⊕ Except Fault PipeState :=
  match argCheckOcc argc run_lower run_upper with
  | some c => Sum.inl c
  | none => Sum.inr (pipeline o initState runs)

/-- A candidate run whose rundb info is fine, whose saveset is missing and
cannot be created, and whose length (100 s) is below `min_run_length`. -/
def gate_short_noData : RunGate :=
  { infoParses := true, hasStateKey := true, stateCreated := false,
    destinationOffline := true, timeParseOk := true, runLength := 100,
    savesetExists := false, savesetExistsAfterCreate := false,
    zombie := false, recovered := false }

/-- A 1D histogram whose every integral and bin content is 4. -/
noncomputable def wHist1 : Hist :=
  { name := "w1", is2D := false, entries := 0,
    xaxis := { nbins := 10, findBin := fun _ => 1 },
    yaxis := { nbins := 10, findBin := fun _ => 1 },
    binContent := fun _ => 4, integral1 := fun _ _ => 4, integral2 := fun _ _ _ _ => 4,
    statMean := 0, statMeanError := 0, statRMS := 0, statRMSError := 0 }

/-- Options with no locations and no hotspot table. -/
def optsNone : Opts := ⟨[], [], "absolute", fun _ => none⟩

/-- A 2D histogram whose every integral and bin content is 9. -/
noncomputable def wHist2 : Hist :=
  { name := "w2", is2D := true, entries := 0,
    xaxis := { nbins := 8, findBin := fun _ => 2 },
    yaxis := { nbins := 8, findBin := fun _ => 2 },
    binContent := fun _ => 9, integral1 := fun _ _ => 9, integral2 := fun _ _ _ _ => 9,
    statMean := 0, statMeanError := 0, statRMS := 0, statRMSError := 0 }

/-- A 2D histogram whose name triggers hotspot lookup of key "TestSens",
whose axes map coordinates `≤ 0` to bin 1 and all others to bin 5, and whose
every 2D integral is 100 (so the example region x:[0,10], y:[0,10] covers
bins [1,5]x[1,5], i.e. 25 bins). -/
noncomputable def hotspotHist : Hist :=
  { name := "VPClusterMapOnTestSens", is2D := true, entries := 0,
    xaxis := { nbins := 100, findBin := fun v => if v ≤ 0 then 1 else 5 },
    yaxis := { nbins := 100, findBin := fun v => if v ≤ 0 then 1 else 5 },
    binContent := fun _ => 0, integral1 := fun _ _ => 0,
    integral2 := fun _ _ _ _ => 100,
    statMean := 0, statMeanError := 0, statRMS := 0, statRMSError := 0 }

/-- The example region of interest x:[0,10], y:[0,10]. -/
noncomputable def roiTest : Roi := ⟨[0, 10], [0, 10]⟩

/-- Options with a hotspot table registering only the key "TestSens". -/
noncomputable def optsHot : Opts :=
  ⟨["h"], ["hotspot_mean"], "absolute",
   fun k => if k = "TestSens" then some roiTest else none⟩

/-- Ratio-type options over two locations. -/
noncomputable def oRatioW : Opts := ⟨["a", "b"], ["raw", "raw"], "ratio", fun _ => none⟩

/-- Options with a single location extracted by `quadrant1`. -/
noncomputable def o4 : Opts := ⟨["loc"], ["quadrant1"], "absolute", fun _ => none⟩

/-- An admitted run whose archive resolves every location to the 1D `wHist1`. -/
noncomputable def r4a : RunInput := ⟨100, 1, fun _ => some wHist1⟩

/-- A second admitted run with the same archive content. -/
noncomputable def r4b : RunInput := ⟨101, 1, fun _ => some wHist1⟩

/-- Options with one location `"hA"` extracted by `raw`. -/
noncomputable def o5 : Opts := ⟨["hA"], ["raw"], "absolute", fun _ => none⟩

/-- An admitted run (number 42, 1 h) whose archive is missing every location. -/
noncomputable def r5 : RunInput := ⟨42, 1, fun _ => none⟩

/-- The state after processing `r5`: the run number and length are recorded
but no count, error, or published point. -/
noncomputable def procState5 : PipeState := ⟨[42], [1], [], [], []⟩

/-! ### Theorems about the computable components -/

/-- Helper: the rational floor in `run_dir_from_run_no` agrees with natural
division. -/
theorem run_dir_from_run_no_eq (n : ℕ) :
    run_dir_from_run_no n =
      toString (n / 10000 * 10000) ++ "/" ++ toString (n / 1000 * 1000) ++ "/" := by
  unfold run_dir_from_run_no
  rw [show ((10000 : ℚ)) = ((10000 : ℕ) : ℚ) by norm_num,
      show ((1000 : ℚ)) = ((1000 : ℕ) : ℚ) by norm_num,
      Nat.floor_div_nat, Nat.floor_natCast, Nat.floor_div_nat, Nat.floor_natCast]

/-- C8: for every run number `n` the shard directory is the deterministic pure
function `floor(n/10000)*10000` followed by `floor(n/1000)*1000`, each as a
decimal path component with a trailing slash; run 265911 resolves to
"260000/265000/" and run 9999 to "0/9000/". -/
theorem C8_shard_directory (n : ℕ) :
    run_dir_from_run_no n =
      toString (n / 10000 * 10000) ++ "/" ++ toString (n / 1000 * 1000) ++ "/" ∧
    run_dir_from_run_no 265911 = "260000/265000/" ∧
    run_dir_from_run_no 9999 = "0/9000/" := by
  refine ⟨run_dir_from_run_no_eq n, ?_, ?_⟩ <;> rw [run_dir_from_run_no_eq] <;> rfl

/-- C3 counterexample: the claim puts the `run_length < min_run_length` check
before the archive-file existence check and asserts that a too-short run is
rejected before any creation request is made.  On this run, which is shorter
than `min_run_length`, `plot_occupancies.py` nevertheless issues the on-demand
creation request (second component `true`) and rejects the run for missing
data, not for being too short; `plot_pseudo_efficiencies.py` follows the
claimed order. -/
theorem C3_counterexample_short_run_archive_first :
    gate_short_noData.runLength < min_run_length ∧
    gateOcc gate_short_noData = (.skip .noData, true) ∧
    gateEff gate_short_noData = (.skip .tooShort, false) := by decide

/-- C3 (amended): each script applies its admission checks as a strict
priority list in which the first failing check short-circuits all later ones.
`plot_pseudo_efficiencies.py` uses the order state / destination / run-length /
archive-missing / zombie / crash-recovered, as the claim states; in
`plot_occupancies.py` the archive existence check and on-demand creation
attempt come BEFORE the run-length check.  The last two conjuncts show the
creation request is issued exactly when every check preceding the archive
block passes and the saveset is absent — in `plot_occupancies.py` that does
not include the run-length check. -/
theorem C3_amended_admission_order (g : RunGate) :
    (gateOcc g).1 = firstFailing (occOrder g) ∧
    (gateEff g).1 = firstFailing (effOrder g) ∧
    (gateOcc g).2 = ((g.infoParses && g.hasStateKey && !g.stateCreated &&
        !(require_offline && !g.destinationOffline)) && !g.savesetExists) ∧
    (gateEff g).2 = ((g.infoParses && !(g.hasStateKey && g.stateCreated) &&
        !(require_offline && !g.destinationOffline) && g.timeParseOk &&
        !(decide (g.runLength < min_run_length))) && !g.savesetExists) := by
  obtain ⟨ip, hk, sc, d, tp, len, se, sa, z, rec⟩ := g
  set_option maxHeartbeats 1000000 in
  by_cases hl : len < min_run_length <;>
    cases ip <;> cases hk <;> cases sc <;> cases tp <;> cases se <;> cases sa <;>
    cases z <;> cases rec <;>
    simp [gateOcc, gateEff, firstFailing, occOrder, effOrder, require_offline, hl]

/-! ### Helper lemmas for the extraction loop -/

/-- `temp_counts[-1]` after appending `p` is `p`. -/
theorem getLast_append_single {α : Type} (l : List α) (p : α) :
    (l ++ [p]).getLast? = some p := by
  rw [List.getLast?_append_cons]; rfl

/-- Unfolding `extractLoc` on the directional/quadrant methods. -/
theorem extractLoc_sel_eq (o : Opts) (L : ℝ) (tc : List ℝ) (h : Hist) (m : String)
    (hm : m = "quadrant1" ∨ m = "quadrant2" ∨ m = "quadrant3" ∨ m = "quadrant4" ∨
          m = "negative" ∨ m = "positive") :
    extractLoc o L tc h m =
      match entries_selection h m with
      | .error f => .error f
      | .ok raw_count =>
        match tc.getLast? with
        | none => .error .indexError
        | some prev =>
          if raw_count < 0 then .error .valueError
          else if raw_count = 0 then .error .zeroDivisionError
          else .ok (raw_count / L, prev / Real.sqrt raw_count) := by
  rcases hm with rfl | rfl | rfl | rfl | rfl | rfl <;>
    · unfold extractLoc
      rw [if_neg (by decide), if_neg (by decide), if_neg (by decide), if_pos (by decide)]

/-- Unfolding `extractLoc` on a single-bin method: a method string that is none
of the named methods, splits on `"bin"` into exactly an empty part and one more
part, and whose bin index parses. -/
theorem extractLoc_bin_single_eq (o : Opts) (L : ℝ) (tc : List ℝ) (h : Hist)
    (m d : String) (b : ℤ)
    (h6 : pySplit m "bin" = ["", d]) (h7 : pyInt d = some b)
    (h1 : m ≠ "raw") (h2 : m ≠ "mean") (h3 : m ≠ "RMS")
    (h4 : ¬(m = "quadrant1" ∨ m = "quadrant2" ∨ m = "quadrant3" ∨ m = "quadrant4" ∨
            m = "negative" ∨ m = "positive"))
    (h5 : m ≠ "hotspot_mean") :
    extractLoc o L tc h m =
      match tc.getLast? with
      | none => .error .indexError
      | some prev =>
        if h.binContent b < 0 then .error .valueError
        else if h.binContent b = 0 then .error .zeroDivisionError
        else .ok (h.binContent b / L, prev / Real.sqrt (h.binContent b)) := by
  unfold extractLoc
  rw [if_neg h1, if_neg h2, if_neg h3, if_neg h4, if_neg h5, if_pos (by rw [h6]; simp)]
  simp only [h6]
  simp [h7]

/-- On a directional method, or on a quadrant method applied to a 2D object,
`entries_selection` returns a value. -/
theorem entries_selection_sel_isOk (h : Hist) (m : String)
    (hm : m = "quadrant1" ∨ m = "quadrant2" ∨ m = "quadrant3" ∨ m = "quadrant4" ∨
          m = "negative" ∨ m = "positive")
    (h2 : (m = "quadrant1" ∨ m = "quadrant2" ∨ m = "quadrant3" ∨ m = "quadrant4") →
          h.is2D = true) :
    ∃ raw, entries_selection h m = .ok raw := by
  rcases hm with rfl | rfl | rfl | rfl | rfl | rfl
  · have hd := h2 (Or.inl rfl)
    unfold entries_selection
    rw [if_neg (fun hc => by rw [hd] at hc; exact absurd hc.2 (by decide)),
        if_neg (by decide), if_neg (by decide), if_pos (by decide)]
    exact ⟨_, rfl⟩
  · have hd := h2 (Or.inr (Or.inl rfl))
    unfold entries_selection
    rw [if_neg (fun hc => by rw [hd] at hc; exact absurd hc.2 (by decide)),
        if_neg (by decide), if_neg (by decide), if_neg (by decide), if_pos (by decide)]
    exact ⟨_, rfl⟩
  · have hd := h2 (Or.inr (Or.inr (Or.inl rfl)))
    unfold entries_selection
    rw [if_neg (fun hc => by rw [hd] at hc; exact absurd hc.2 (by decide)),
        if_neg (by decide), if_neg (by decide), if_neg (by decide), if_neg (by decide),
        if_pos (by decide)]
    exact ⟨_, rfl⟩
  · have hd := h2 (Or.inr (Or.inr (Or.inr rfl)))
    unfold entries_selection
    rw [if_neg (fun hc => by rw [hd] at hc; exact absurd hc.2 (by decide)),
        if_neg (by decide), if_neg (by decide), if_neg (by decide), if_neg (by decide),
        if_neg (by decide), if_pos (by decide)]
    exact ⟨_, rfl⟩
  · unfold entries_selection
    rw [if_neg (fun hc => absurd hc.1 (by decide)), if_pos (by decide)]
    exact ⟨_, rfl⟩
  · unfold entries_selection
    rw [if_neg (fun hc => absurd hc.1 (by decide)), if_neg (by decide), if_pos (by decide)]
    exact ⟨_, rfl⟩

/-- C9 counterexample: invoked with too few arguments (`len(sys.argv) = 3`),
`plot_occupancies.py` prints its usage message and calls `sys.exit(0)` — exit
status zero, so the claimed non-zero exit status is false for this script. -/
theorem C9_counterexample_exit_zero :
    argCheckOcc 3 300000 300010 = some 0 ∧
    ¬ (∃ c, argCheckOcc 3 300000 300010 = some c ∧ c ≠ 0) := by
  refine ⟨by decide, ?_⟩
  rintro ⟨c, hc, hne⟩
  have h0 : argCheckOcc 3 300000 300010 = some 0 := by decide
  rw [h0] at hc
  exact hne (Option.some.inj hc).symm

/-- C1: for every location whose method is directional (`negative`/`positive`),
a quadrant, or a single-bin `binN`, when at least one earlier location has
already been extracted for the same run (last prior value `p`) and the current
raw count (integral or bin content) is positive, the extracted sample's error
is `p / sqrt(raw_count)` — the PREVIOUS sample's value divided by the square
root of the CURRENT raw count (`temp_counts[-1]/sqrt(raw_count)`, lines 231
and 291 of `plot_occupancies.py`), and the value is `raw_count / L`. -/
theorem C1_prior_sample_error_coupling (o : Opts) (L : ℝ) (l : List ℝ) (p : ℝ) (h : Hist) :
    (∀ m raw_count,
        (m = "quadrant1" ∨ m = "quadrant2" ∨ m = "quadrant3" ∨ m = "quadrant4" ∨
         m = "negative" ∨ m = "positive") →
        entries_selection h m = .ok raw_count → 0 < raw_count →
        extractLoc o L (l ++ [p]) h m = .ok (raw_count / L, p / Real.sqrt raw_count)) ∧
    (∀ m d b, pySplit m "bin" = ["", d] → pyInt d = some b →
        m ≠ "raw" → m ≠ "mean" → m ≠ "RMS" →
        ¬(m = "quadrant1" ∨ m = "quadrant2" ∨ m = "quadrant3" ∨ m = "quadrant4" ∨
          m = "negative" ∨ m = "positive") → m ≠ "hotspot_mean" →
        0 < h.binContent b →
        extractLoc o L (l ++ [p]) h m =
          .ok (h.binContent b / L, p / Real.sqrt (h.binContent b))) := by
  constructor
  · intro m raw_count hm hsel hpos
    rw [extractLoc_sel_eq o L (l ++ [p]) h m hm, hsel, getLast_append_single]
    dsimp only
    rw [if_neg (not_lt.mpr hpos.le), if_neg hpos.ne']
  · intro m d b h6 h7 h1 h2 h3 h4 h5 hpos
    rw [extractLoc_bin_single_eq o L (l ++ [p]) h m d b h6 h7 h1 h2 h3 h4 h5,
        getLast_append_single]
    dsimp only
    rw [if_neg (not_lt.mpr hpos.le), if_neg hpos.ne']

/-- C1 witness: on the concrete 1D histogram `wHist1` (integral 4,
`method = "negative"`, run length 1 h) with one previously extracted count 3,
the sample is `(4, 3/sqrt 4) = (4, 3/2)`. -/
theorem C1_prior_sample_error_coupling_witness :
    entries_selection wHist1 "negative" = .ok 4 ∧ (0 : ℝ) < 4 ∧
    extractLoc optsNone 1 ([] ++ [3]) wHist1 "negative" = .ok (4 / 1, 3 / Real.sqrt 4) ∧
    (4 : ℝ) / 1 = 4 ∧ (3 : ℝ) / Real.sqrt 4 = 3 / 2 := by
  have hsel : entries_selection wHist1 "negative" = .ok 4 := by
    unfold entries_selection
    rw [if_neg (fun hc => absurd hc.1 (by decide)), if_pos (by decide)]
    rfl
  refine ⟨hsel, by norm_num, ?_, by norm_num, ?_⟩
  · exact (C1_prior_sample_error_coupling optsNone 1 [] 3 wHist1).1 "negative" 4
      (Or.inr (Or.inr (Or.inr (Or.inr (Or.inl rfl))))) hsel (by norm_num)
  · rw [show (4 : ℝ) = 2 ^ 2 by norm_num, Real.sqrt_sq (by norm_num : (0:ℝ) ≤ 2)]

/-- C10: the prior-sample error formula is partial.  When `temp_counts` is
empty — i.e. for the FIRST configured location — every directional, quadrant
(on a 2D object, where the dimensionality exit does not fire first) and
single-bin method faults with an `IndexError` from `temp_counts[-1]` instead
of producing a sample.  Once one earlier location has been extracted the
`IndexError` can no longer occur: the only faults left on these methods are
the ones the source also has past that point, `math.sqrt` of a negative raw
count (`ValueError`) and `prev/sqrt(0)` on a zero raw count
(`ZeroDivisionError`). -/
theorem C10_first_location_faults (o : Opts) (L : ℝ) (h : Hist) :
    (∀ m,
        (m = "quadrant1" ∨ m = "quadrant2" ∨ m = "quadrant3" ∨ m = "quadrant4" ∨
         m = "negative" ∨ m = "positive") →
        ((m = "quadrant1" ∨ m = "quadrant2" ∨ m = "quadrant3" ∨ m = "quadrant4") →
           h.is2D = true) →
        extractLoc o L [] h m = .error .indexError ∧
        ∀ (p : ℝ) (l : List ℝ), extractLoc o L (l ++ [p]) h m ≠ .error .indexError) ∧
    (∀ m d b, pySplit m "bin" = ["", d] → pyInt d = some b →
        m ≠ "raw" → m ≠ "mean" → m ≠ "RMS" →
        ¬(m = "quadrant1" ∨ m = "quadrant2" ∨ m = "quadrant3" ∨ m = "quadrant4" ∨
          m = "negative" ∨ m = "positive") → m ≠ "hotspot_mean" →
        extractLoc o L [] h m = .error .indexError ∧
        ∀ (p : ℝ) (l : List ℝ), extractLoc o L (l ++ [p]) h m ≠ .error .indexError) := by
  constructor
  · intro m hm h2d
    obtain ⟨raw, hraw⟩ := entries_selection_sel_isOk h m hm h2d
    refine ⟨?_, ?_⟩
    · rw [extractLoc_sel_eq o L [] h m hm, hraw]; rfl
    · intro p l
      rw [extractLoc_sel_eq o L (l ++ [p]) h m hm, hraw, getLast_append_single]
      dsimp only
      split_ifs <;> simp
  · intro m d b h6 h7 h1 h2 h3 h4 h5
    refine ⟨?_, ?_⟩
    · rw [extractLoc_bin_single_eq o L [] h m d b h6 h7 h1 h2 h3 h4 h5]; rfl
    · intro p l
      rw [extractLoc_bin_single_eq o L (l ++ [p]) h m d b h6 h7 h1 h2 h3 h4 h5,
          getLast_append_single]
      dsimp only
      split_ifs <;> simp

/-- C10 witness: on the concrete 2D histogram `wHist2`, `quadrant1` and `bin3`
as first location fault with an index error, and with a prior count present
the index fault is gone. -/
theorem C10_first_location_faults_witness :
    extractLoc optsNone 1 [] wHist2 "quadrant1" = .error .indexError ∧
    extractLoc optsNone 1 [] wHist2 "bin3" = .error .indexError ∧
    extractLoc optsNone 1 ([] ++ [5]) wHist2 "quadrant1" ≠ .error .indexError := by
  have hq := (C10_first_location_faults optsNone 1 wHist2).1 "quadrant1"
    (Or.inl rfl) (fun _ => rfl)
  have hb := (C10_first_location_faults optsNone 1 wHist2).2 "bin3" "3" 3 (by decide)
    (by decide) (by decide) (by decide) (by decide) (by decide) (by decide)
  exact ⟨hq.1, hb.1, hq.2 5 []⟩

/-- Unfolding `extractLoc` on the `hotspot_mean` method. -/
theorem extractLoc_hotspot_eq (o : Opts) (L : ℝ) (tc : List ℝ) (h : Hist) :
    extractLoc o L tc h "hotspot_mean" =
      (match o.regions (pyReplace h.name "VPClusterMapOn" "") with
       | none => .ok (0, 0)
       | some roi =>
         match roi.x, roi.y with
         | x0 :: xr, y0 :: yr =>
           match xr with
           | [] => .error .indexError
           | x1 :: _ =>
             match yr with
             | [] => .error .indexError
             | y1 :: _ =>
               let start_x_bin := h.xaxis.findBin x0
               let end_x_bin := h.xaxis.findBin x1
               let start_y_bin := h.yaxis.findBin y0
               let end_y_bin := h.yaxis.findBin y1
               let n_bins_in_roi : ℤ :=
                 (end_x_bin - start_x_bin + 1) * (end_y_bin - start_y_bin + 1)
               let integral := h.integral2 start_x_bin end_x_bin start_y_bin end_y_bin
               if 0 < n_bins_in_roi ∧ 0 < integral then
                 .ok (integral / (n_bins_in_roi : ℝ) / L,
                      Real.sqrt integral / (n_bins_in_roi : ℝ) / L)
               else .ok (0, 0)
         | _, _ => .ok (0, 0)) := by
  unfold extractLoc
  rw [if_neg (by decide), if_neg (by decide), if_neg (by decide), if_neg (by decide),
      if_pos rfl]

/-- C2: for a ratio-type series with extracted samples `(c0, e0)` and
`(c1, e1)`: when either value is exactly zero the accumulator appends a
`(0, 0)` point and publishes nothing (the point still occupies one slot of the
counts/errors lists used for axis indexing); otherwise it appends
`c0/c1` with error `c0/c1 * sqrt((e0/c0)^2 + (e1/c1)^2)` and publishes it.
At `(v0=4, e0=0.2, v1=2, e1=0.1)` the value is 2 and the error is
`2*sqrt(0.0025+0.0025)`, within `0.0001` of `0.1414`. -/
theorem C2_ratio_combination :
    (∀ (o : Opts) (s : PipeState) (run : ℕ) (c0 c1 e0 e1 : ℝ), o.mtype = "ratio" →
      ((c0 = 0 ∨ c1 = 0) →
        accumulate o s run [c0, c1] [e0, e1] =
          .ok { s with counts := s.counts ++ [0], errors := s.errors ++ [0] }) ∧
      (c0 ≠ 0 → c1 ≠ 0 →
        accumulate o s run [c0, c1] [e0, e1] =
          .ok { s with
                counts := s.counts ++ [c0 / c1],
                errors := s.errors ++
                  [c0 / c1 * Real.sqrt ((e0 / c0) ^ 2 + (e1 / c1) ^ 2)],
                published := s.published ++
                  [(run, c0 / c1, c0 / c1 * Real.sqrt ((e0 / c0) ^ 2 + (e1 / c1) ^ 2))] })) ∧
    (accumulate oRatioW initState 1 [4, 2] [0.2, 0.1] =
        .ok { initState with
              counts := [2], errors := [2 * Real.sqrt (0.0025 + 0.0025)],
              published := [(1, 2, 2 * Real.sqrt (0.0025 + 0.0025))] } ∧
     |2 * Real.sqrt (0.0025 + 0.0025) - 0.1414| < 0.0001) := by
  have hgen : ∀ (o : Opts) (s : PipeState) (run : ℕ) (c0 c1 e0 e1 : ℝ), o.mtype = "ratio" →
      ((c0 = 0 ∨ c1 = 0) →
        accumulate o s run [c0, c1] [e0, e1] =
          .ok { s with counts := s.counts ++ [0], errors := s.errors ++ [0] }) ∧
      (c0 ≠ 0 → c1 ≠ 0 →
        accumulate o s run [c0, c1] [e0, e1] =
          .ok { s with
                counts := s.counts ++ [c0 / c1],
                errors := s.errors ++
                  [c0 / c1 * Real.sqrt ((e0 / c0) ^ 2 + (e1 / c1) ^ 2)],
                published := s.published ++
                  [(run, c0 / c1, c0 / c1 * Real.sqrt ((e0 / c0) ^ 2 + (e1 / c1) ^ 2))] }) := by
    intro o s run c0 c1 e0 e1 hty
    unfold accumulate
    rw [hty]
    constructor
    · intro hz
      rw [if_neg (by decide), if_pos rfl]
      dsimp only
      rw [if_pos hz]
    · intro hc0 hc1
      rw [if_neg (by decide), if_pos rfl]
      dsimp only
      rw [if_neg (fun hor => hor.elim hc0 hc1)]
  refine ⟨hgen, ?_, ?_⟩
  · have h42 : (4 : ℝ) / 2 = 2 := by norm_num
    have harg : ((0.2 : ℝ) / 4) ^ 2 + ((0.1 : ℝ) / 2) ^ 2 = 0.0025 + 0.0025 := by norm_num
    have := (hgen oRatioW initState 1 4 2 0.2 0.1 rfl).2 (by norm_num) (by norm_num)
    rw [this, h42, harg]
    rfl
  · have hlow : (0.0707 : ℝ) < Real.sqrt (0.0025 + 0.0025) := by
      rw [show (0.0025 : ℝ) + 0.0025 = 0.005 by norm_num]
      exact (Real.lt_sqrt (by norm_num : (0 : ℝ) ≤ 0.0707)).mpr
        (by norm_num : ((0.0707 : ℝ)) ^ 2 < 0.005)
    have hhigh : Real.sqrt (0.0025 + 0.0025) < 0.07072 := by
      rw [show (0.0025 : ℝ) + 0.0025 = 0.005 by norm_num]
      exact (Real.sqrt_lt' (by norm_num : (0 : ℝ) < 0.07072)).mpr (by norm_num)
    rw [abs_sub_lt_iff]
    constructor <;> nlinarith [hlow, hhigh]

/-- C2 witness: a zero numerator yields the unpublished `(0, 0)` point while
still appending one entry to the counts and errors lists. -/
theorem C2_ratio_combination_witness :
    oRatioW.mtype = "ratio" ∧ ((0 : ℝ) = 0 ∨ (5 : ℝ) = 0) ∧
    accumulate oRatioW initState 7 [0, 5] [0.3, 0.4] =
      .ok { initState with
            counts := initState.counts ++ [0], errors := initState.errors ++ [0] } :=
  ⟨rfl, Or.inl rfl,
   ((C2_ratio_combination.1 oRatioW initState 7 0 5 0.3 0.4 rfl).1 (Or.inl rfl))⟩

/-- C4 counterexample: the claim asserts that `negative`/`positive` on a 1D
object fail and that a quadrant failure skips only that run.  On the concrete
1D histogram `wHist1`, `entries_selection` with `"negative"` silently returns
the 1D integral (first conjunct), and a run extracted with `"quadrant1"`
terminates the WHOLE pipeline with `sys.exit(0)` — the second admitted run
`r4b` is never processed (second conjunct). -/
theorem C4_counterexample_1d_methods :
    entries_selection wHist1 "negative" = .ok (wHist1.integral1 1 (wHist1.xaxis.findBin 0)) ∧
    pipeline o4 initState [r4a, r4b] = .error (.exitCode 0) := by
  constructor
  · unfold entries_selection
    rw [if_neg (fun hc => absurd hc.1 (by decide)), if_pos (by decide)]
    rfl
  · set_option maxRecDepth 4000 in rfl

/-- C4 (amended): on a 1-dimensional object the quadrant methods fail with the
dimensionality exit (`sys.exit(0)`) and never return a value, while the
directional methods `negative`/`positive` succeed with the corresponding 1D
integral; and any extraction fault — the dimensionality exit included — aborts
the entire pipeline, not just the current run. -/
theorem C4_amended_wrong_dimensionality (h : Hist) (hd : h.is2D = false) :
    (∀ m, (m = "quadrant1" ∨ m = "quadrant2" ∨ m = "quadrant3" ∨ m = "quadrant4") →
       entries_selection h m = .error (.exitCode 0)) ∧
    entries_selection h "negative" = .ok (h.integral1 1 (h.xaxis.findBin 0)) ∧
    entries_selection h "positive" =
      .ok (h.integral1 (h.xaxis.findBin 0) h.xaxis.nbins) ∧
    (∀ (o : Opts) (s : PipeState) (r : RunInput) (rs : List RunInput) (f : Fault),
       processRun o s r = .error f → pipeline o s (r :: rs) = .error f) := by
  refine ⟨?_, ?_, ?_, ?_⟩
  · intro m hm
    rcases hm with rfl | rfl | rfl | rfl <;>
      · unfold entries_selection
        rw [if_pos ⟨by decide, hd⟩]
  · unfold entries_selection
    rw [if_neg (fun hc => absurd hc.1 (by decide)), if_pos (by decide)]
    simp [hd]
  · unfold entries_selection
    rw [if_neg (fun hc => absurd hc.1 (by decide)), if_neg (by decide), if_pos (by decide)]
    simp [hd]
  · intro o s r rs f hpr
    unfold pipeline
    rw [hpr]

/-- C4 witness: the amended behaviour observed on the concrete 1D histogram
`wHist1` and a one-run pipeline that dies with exit status 0. -/
theorem C4_amended_wrong_dimensionality_witness :
    wHist1.is2D = false ∧
    entries_selection wHist1 "quadrant2" = .error (.exitCode 0) ∧
    entries_selection wHist1 "positive" =
      .ok (wHist1.integral1 (wHist1.xaxis.findBin 0) wHist1.xaxis.nbins) ∧
    pipeline o4 initState [r4a] = .error (.exitCode 0) := by
  refine ⟨rfl, (C4_amended_wrong_dimensionality wHist1 rfl).1 "quadrant2" (Or.inr (Or.inl rfl)),
    (C4_amended_wrong_dimensionality wHist1 rfl).2.2.1, ?_⟩
  exact (C4_amended_wrong_dimensionality wHist1 rfl).2.2.2 o4 initState r4a [] (.exitCode 0)
    (by set_option maxRecDepth 4000 in rfl)

/-- C5 counterexample: the claim asserts a run with a missing location leaves
NO trace — no run-number/run-length entry — and that numbers and counts always
have equal length.  Processing the concrete run `r5` (whose archive misses the
configured location) appends the run number 42 and the length to `runs_info`
but nothing to counts/errors, leaving the sequences misaligned. -/
theorem C5_counterexample_run_number_recorded :
    processRun o5 initState r5 = .ok procState5 ∧
    procState5.numbers.length ≠ procState5.counts.length :=
  ⟨rfl, by decide⟩

/-- C5 (amended): when any configured location is absent from the archive the
run's locations are indeed all discarded together — counts, errors and the
published series receive nothing — but the run-number and run-length entries
have already been appended (lines 198-199 precede the presence check), so the
run DOES contribute a `runs_info` entry and the numbers/lengths lists can be
longer than counts/errors. -/
theorem C5_amended_location_missing_skip (o : Opts) (s : PipeState) (r : RunInput)
    (hmiss : ∃ loc ∈ o.locations, r.file loc = none) :
    processRun o s r =
      .ok { s with
            numbers := s.numbers ++ [r.run],
            lengths := s.lengths ++ [r.lengthHours] } := by
  unfold processRun
  rw [if_pos ?hc]
  case hc =>
    obtain ⟨loc, hmem, hnone⟩ := hmiss
    exact List.any_eq_true.mpr ⟨loc, hmem, by rw [hnone]; rfl⟩

/-- C5 witness: the amended behaviour at the concrete run `r5`. -/
theorem C5_amended_location_missing_skip_witness :
    (∃ loc ∈ o5.locations, r5.file loc = none) ∧
    processRun o5 initState r5 =
      .ok { initState with
            numbers := initState.numbers ++ [r5.run],
            lengths := initState.lengths ++ [r5.lengthHours] } :=
  ⟨⟨"hA", List.mem_singleton.mpr rfl, rfl⟩,
   C5_amended_location_missing_skip o5 initState r5 ⟨"hA", List.mem_singleton.mpr rfl, rfl⟩⟩

/-- C6: `hotspot_mean` extraction never raises: it returns `(0, 0)` when the
sensor key (the object name with every occurrence of "VPClusterMapOn"
removed) has no registered region, when the region's x or y list is empty, or
when the region integral is non-positive (the bin ranges computed from a real
axis are ordered, expressed here as the `sx ≤ ex`, `sy ≤ ey` hypotheses, so
the bin count is positive); with a positive integral it returns value
`integral / n_bins / L` and error `sqrt(integral) / n_bins / L`. -/
theorem C6_hotspot_mean (o : Opts) (L : ℝ) (tc : List ℝ) (h : Hist) :
    (o.regions (pyReplace h.name "VPClusterMapOn" "") = none →
       extractLoc o L tc h "hotspot_mean" = .ok (0, 0)) ∧
    (∀ roi, o.regions (pyReplace h.name "VPClusterMapOn" "") = some roi →
       (roi.x = [] ∨ roi.y = []) →
       extractLoc o L tc h "hotspot_mean" = .ok (0, 0)) ∧
    (∀ roi x0 x1 y0 y1 sx ex sy ey (nb : ℤ) (I : ℝ),
       o.regions (pyReplace h.name "VPClusterMapOn" "") = some roi →
       roi.x = [x0, x1] → roi.y = [y0, y1] →
       sx = h.xaxis.findBin x0 → ex = h.xaxis.findBin x1 →
       sy = h.yaxis.findBin y0 → ey = h.yaxis.findBin y1 →
       sx ≤ ex → sy ≤ ey →
       nb = (ex - sx + 1) * (ey - sy + 1) →
       I = h.integral2 sx ex sy ey →
       ((I ≤ 0 → extractLoc o L tc h "hotspot_mean" = .ok (0, 0)) ∧
        (0 < I → extractLoc o L tc h "hotspot_mean" =
           .ok (I / (nb : ℝ) / L, Real.sqrt I / (nb : ℝ) / L)))) := by
  refine ⟨?_, ?_, ?_⟩
  · intro hreg
    rw [extractLoc_hotspot_eq, hreg]
  · intro roi hreg hempty
    obtain ⟨rx, ry⟩ := roi
    rw [extractLoc_hotspot_eq, hreg]
    rcases hempty with hx | hy
    · simp only at hx
      subst hx
      rfl
    · simp only at hy
      subst hy
      rcases rx with - | ⟨a, as⟩ <;> rfl
  · intro roi x0 x1 y0 y1 sx ex sy ey nb I hreg hx hy hsx hex hsy hey hxle hyle hnb hI
    subst hsx hex hsy hey hnb hI
    obtain ⟨rx, ry⟩ := roi
    simp only at hx hy
    subst hx hy
    have hnb : (0 : ℤ) < (h.xaxis.findBin x1 - h.xaxis.findBin x0 + 1) *
        (h.yaxis.findBin y1 - h.yaxis.findBin y0 + 1) :=
      mul_pos (by omega) (by omega)
    constructor
    · intro hint
      rw [extractLoc_hotspot_eq, hreg]
      dsimp only
      exact if_neg (fun hc => absurd hc.2 (not_lt.mpr hint))
    · intro hint
      rw [extractLoc_hotspot_eq, hreg]
      dsimp only
      exact if_pos ⟨hnb, hint⟩

/-- C6 witness: the claim's example — region x:[0,10] and y:[0,10] resolving
to bins [1,5]x[1,5] (25 bins), integral 100, run length 2 h — yields value
`(100/25)/2 = 2` and error `sqrt(100)/25/2 = 0.2`. -/
theorem C6_hotspot_mean_witness :
    optsHot.regions (pyReplace hotspotHist.name "VPClusterMapOn" "") = some roiTest ∧
    roiTest.x = [0, 10] ∧ roiTest.y = [0, 10] ∧
    hotspotHist.xaxis.findBin 0 = 1 ∧ hotspotHist.xaxis.findBin 10 = 5 ∧
    (0 : ℝ) < 100 ∧
    extractLoc optsHot 2 [] hotspotHist "hotspot_mean" = .ok (2, 0.2) := by
  have hfbx0 : hotspotHist.xaxis.findBin 0 = 1 := if_pos le_rfl
  have hfbx10 : hotspotHist.xaxis.findBin 10 = 5 := if_neg (by norm_num)
  have hfby0 : hotspotHist.yaxis.findBin 0 = 1 := if_pos le_rfl
  have hfby10 : hotspotHist.yaxis.findBin 10 = 5 := if_neg (by norm_num)
  have hkey : pyReplace hotspotHist.name "VPClusterMapOn" "" = "TestSens" := by decide
  have hreg : optsHot.regions (pyReplace hotspotHist.name "VPClusterMapOn" "") =
      some roiTest := by rw [hkey]; rfl
  have hI : hotspotHist.integral2 1 5 1 5 = 100 := rfl
  have hmain := ((C6_hotspot_mean optsHot 2 [] hotspotHist).2.2 roiTest 0 10 0 10 1 5 1 5
    ((5 - 1 + 1) * (5 - 1 + 1)) 100 hreg rfl rfl hfbx0.symm hfbx10.symm hfby0.symm
    hfby10.symm (by omega) (by omega) rfl hI.symm).2 (by norm_num)
  refine ⟨hreg, rfl, rfl, hfbx0, hfbx10, by norm_num, ?_⟩
  rw [hmain]
  have h100 : Real.sqrt 100 = 10 := by
    rw [show (100 : ℝ) = 10 ^ 2 by norm_num, Real.sqrt_sq (by norm_num : (0:ℝ) ≤ 10)]
  norm_num [h100]

/-- C7: with no explicit y-range configured and a positive minimum bin
content, the displayed range is `[0, 1.5*workingMax]` where `workingMax` is
the true maximum when `5*mean > max` and the mean bin content otherwise; the
series `[1,1,1,1,10]` (mean 2.8, max 10, `5*2.8 = 14 > 10`) gets range
`[0, 15]`. -/
theorem C7_axis_range_heuristic (b : ℚ) (bs : List ℚ) (hmin : 0 < bs.foldl min b) :
    yAxisRange (b :: bs) =
      some (0, 3 / 2 *
        (if 5 * ((b :: bs).sum / ((b :: bs).length : ℚ)) > bs.foldl max b
         then bs.foldl max b
         else (b :: bs).sum / ((b :: bs).length : ℚ))) ∧
    yAxisRange [1, 1, 1, 1, 10] = some (0, 15) := by
  constructor
  · unfold yAxisRange
    dsimp only
    rw [if_pos hmin]
  · norm_num [yAxisRange]

/-- C7 witness: the heuristic applied to the claim's series `[1,1,1,1,10]`. -/
theorem C7_axis_range_heuristic_witness :
    0 < List.foldl min (1 : ℚ) [1, 1, 1, 10] ∧
    (yAxisRange (1 :: [1, 1, 1, 10]) =
      some (0, 3 / 2 *
        (if 5 * (((1 : ℚ) :: [1, 1, 1, 10]).sum / (((1 : ℚ) :: [1, 1, 1, 10]).length : ℚ)) >
             List.foldl max (1 : ℚ) [1, 1, 1, 10]
         then List.foldl max (1 : ℚ) [1, 1, 1, 10]
         else ((1 : ℚ) :: [1, 1, 1, 10]).sum / (((1 : ℚ) :: [1, 1, 1, 10]).length : ℚ))) ∧
     yAxisRange [1, 1, 1, 1, 10] = some (0, 15)) :=
  ⟨by decide, C7_axis_range_heuristic 1 [1, 1, 1, 10] (by decide)⟩

/-- C9 (amended): with missing arguments or an inverted run range, each script
prints a message and exits before any run is processed — but
`plot_occupancies.py` exits with status 0 while `plot_pseudo_efficiencies.py`
exits with status 1; the claimed non-zero status holds only for the latter.
The `scriptOcc` conjunct shows the exit happens before the run loop. -/
theorem C9_amended_usage_exit (argc : ℕ) (rl ru : ℤ) (hbad : argc < 4 ∨ ru < rl) :
    argCheckOcc argc rl ru = some 0 ∧ argCheckEff argc rl ru = some 1 ∧
    ∀ (o : Opts) (runs : List RunInput), scriptOcc argc rl ru o runs = Sum.inl 0 := by
  have hocc : argCheckOcc argc rl ru = some 0 := by
    by_cases h4 : argc < 4
    · simp [argCheckOcc, h4]
    · rcases hbad with h | h
      · exact absurd h h4
      · simp [argCheckOcc, h4, h]
  have heff : argCheckEff argc rl ru = some 1 := by
    by_cases h4 : argc < 4
    · simp [argCheckEff, h4]
    · rcases hbad with h | h
      · exact absurd h h4
      · simp [argCheckEff, h4, h]
  refine ⟨hocc, heff, ?_⟩
  intro o runs
  unfold scriptOcc
  rw [hocc]

/-- C9 witness: three arguments (fewer than required) make `plot_occupancies`
exit 0 and `plot_pseudo_efficiencies` exit 1, before any run is processed. -/
theorem C9_amended_usage_exit_witness :
    ((3 : ℕ) < 4 ∨ (0 : ℤ) < 0) ∧
    (argCheckOcc 3 0 0 = some 0 ∧ argCheckEff 3 0 0 = some 1 ∧
     ∀ (o : Opts) (runs : List RunInput), scriptOcc 3 0 0 o runs = Sum.inl 0) :=
  ⟨Or.inl (by decide), C9_amended_usage_exit 3 0 0 (Or.inl (by decide))⟩

end LHCbTrends
